import Mathlib

/-!
Verification of the real-time state-synchronization layer of the Hermes
dispatcher console: the WebSocket connection manager and message router
(`src/services/websocket.ts`) and the Zustand domain stores
(trip / driver / alert / metrics / UI-notification / websocket stores).

The TypeScript code is shallowly embedded: each store is a Lean structure
and each action a pure function on it; the singleton `WebSocketService` is
a state machine whose socket world is made explicit so that transport
lifecycle claims (single active connection, backoff, auth handling) can be
stated.  JavaScript peculiarities that matter to the claims are modelled
faithfully: `Array.prototype.findIndex` (first match), `splice` at
`indexOf` (first occurrence removal), `{...a, ...b}` shallow merge,
and truthiness tests on filter criteria.  One piece of the source is
deliberately not modelled: the comparator the source passes to
`Array.prototype.sort` never returns 0, so it is not a consistent
comparison function and the ECMAScript specification leaves the resulting
order implementation-defined; the sort call is therefore kept outside the
model (see the notes at `applyTripFilters`).
-/

/-- `Array.prototype.findIndex`: index of the first element satisfying `p`,
`none` standing for the JS return value `-1`. -/
def jsFindIndex {α : Type} (p : α → Bool) : List α → Option Nat
  | [] => none
  | x :: xs => if p x then some 0 else (jsFindIndex p xs).map (· + 1)

/-- `handlers.splice(handlers.indexOf(h), 1)`: remove the first occurrence
of `h`, leaving the list unchanged when `h` is absent (`indexOf` = -1). -/
def removeFirst (h : Nat) : List Nat → List Nat
  | [] => []
  | x :: xs => if x == h then xs else x :: removeFirst h xs

/-- `hay.includes(needle)` on JS strings. -/
def jsIncludes (hay needle : String) : Bool :=
  decide (needle.toList <:+: hay.toList)

/-! ## Domain entities (from `src/types`, restricted to the fields the
store actions and filters touch) -/

structure Coordinates where
  latitude : Int
  longitude : Int
deriving DecidableEq

structure Rider where
  id : String
  firstName : String
  lastName : String
deriving DecidableEq

structure DriverRef where
  id : String
deriving DecidableEq

structure Location where
  address : String
deriving DecidableEq

structure Trip where
  id : String
  status : String
  serviceType : String
  driver : Option DriverRef
  rider : Rider
  pickup : Location
  destination : Location
  requestedAt : Nat
  fare : Nat
deriving DecidableEq

instance : Inhabited Trip :=
  ⟨⟨"", "", "", none, ⟨"", "", ""⟩, ⟨""⟩, ⟨""⟩, 0, 0⟩⟩

structure Driver where
  id : String
  firstName : String
  status : String
  availability : String
  isOnline : Bool
  currentLocation : Option Coordinates
  lastActive : Option Nat
deriving DecidableEq

instance : Inhabited Driver := ⟨⟨"", "", "", "", false, none, none⟩⟩

structure Alert where
  id : String
  title : String
  severity : String
  isRead : Bool
deriving DecidableEq

instance : Inhabited Alert := ⟨⟨"", "", "", false⟩⟩

structure DashboardMetrics where
  activeTrips : Nat
  availableDrivers : Nat
deriving DecidableEq

/-! ## Trip store (`useTripStore`) -/

inductive SortField where
  | requestedAt
  | fare
deriving DecidableEq

inductive SortDir where
  | asc
  | desc
deriving DecidableEq

structure SortOptions where
  field : SortField
  direction : SortDir
deriving DecidableEq

structure TripFilters where
  status : Option (List String)
  serviceType : Option (List String)
  driverId : Option String
  riderId : Option String
  dateRange : Option (Nat × Nat)
  search : Option String
deriving DecidableEq

structure TripState where
  trips : List Trip
  selectedTrip : Option Trip
  filters : TripFilters
  sortOptions : SortOptions
  isLoading : Bool
  lastUpdated : Option Nat
deriving DecidableEq

/-- `Partial<Trip>` as used by `updateTrip`; absent fields leave the record
untouched under the `{...old, ...updates}` shallow merge. -/
structure TripUpdate where
  status : Option String
  serviceType : Option String
  fare : Option Nat
deriving DecidableEq

def mergeTrip (t : Trip) (u : TripUpdate) : Trip :=
  { t with
    status := u.status.getD t.status
    serviceType := u.serviceType.getD t.serviceType
    fare := u.fare.getD t.fare }

/-- `useTripStore.addTrip`: `state.trips.unshift(trip)` plus fresh
`lastUpdated` (the wall clock `new Date()` is passed as `now`). -/
def addTrip (st : TripState) (trip : Trip) (now : Nat) : TripState :=
  { st with trips := trip :: st.trips, lastUpdated := some now }

/-- `useTripStore.updateTrip`: locate by id with `findIndex`; when absent
nothing in the draft is touched; when present, shallow-merge the updates,
refresh `lastUpdated`, and merge into `selectedTrip` when it has the same
id. -/
def updateTrip (st : TripState) (tripId : String) (updates : TripUpdate) (now : Nat) :
    TripState :=
  match jsFindIndex (fun t => t.id == tripId) st.trips with
  | none => st
  | some i =>
    let old := st.trips.getD i default
    let merged := mergeTrip old updates
    let sel :=
      match st.selectedTrip with
      | some s => if s.id == tripId then some (mergeTrip s updates) else some s
      | none => none
    { st with trips := st.trips.set i merged, lastUpdated := some now, selectedTrip := sel }

/-! ## Driver store (`useDriverStore`) -/

structure DriverState where
  drivers : List Driver
  selectedDriver : Option Driver
  sortOptions : SortOptions
  isLoading : Bool
  lastUpdated : Option Nat
deriving DecidableEq

/-- `Partial<Driver>` as used by `updateDriver` (the two router call sites
pass `currentLocation`/`lastActive` and `status`/`availability`). -/
structure DriverUpdate where
  status : Option String
  availability : Option String
  currentLocation : Option Coordinates
  lastActive : Option Nat
deriving DecidableEq

def mergeDriver (d : Driver) (u : DriverUpdate) : Driver :=
  { d with
    status := u.status.getD d.status
    availability := u.availability.getD d.availability
    currentLocation :=
      match u.currentLocation with
      | some c => some c
      | none => d.currentLocation
    lastActive :=
      match u.lastActive with
      | some n => some n
      | none => d.lastActive }

/-- `useDriverStore.updateDriver`: same shape as `updateTrip`. -/
def updateDriver (st : DriverState) (driverId : String) (updates : DriverUpdate)
    (now : Nat) : DriverState :=
  match jsFindIndex (fun d => d.id == driverId) st.drivers with
  | none => st
  | some i =>
    let old := st.drivers.getD i default
    let merged := mergeDriver old updates
    let sel :=
      match st.selectedDriver with
      | some s => if s.id == driverId then some (mergeDriver s updates) else some s
      | none => none
    { st with
      drivers := st.drivers.set i merged
      lastUpdated := some now
      selectedDriver := sel }

/-! ## Alert store (`useAlertStore`) -/

structure AlertState where
  alerts : List Alert
  unreadCount : Nat
  selectedAlert : Option Alert
  isLoading : Bool
deriving DecidableEq

/-- `Partial<Alert>` for `updateAlert`. -/
structure AlertUpdate where
  isRead : Option Bool
  title : Option String
deriving DecidableEq

def mergeAlert (a : Alert) (u : AlertUpdate) : Alert :=
  { a with isRead := u.isRead.getD a.isRead, title := u.title.getD a.title }

/-- The JS comparison `oldAlert.isRead !== updates.isRead`: when the update
omits `isRead` the right side is `undefined`, which is strictly unequal to
any boolean. -/
def jsIsReadNeq (old : Bool) (u : Option Bool) : Bool :=
  match u with
  | some b => old != b
  | none => true

/-- `useAlertStore.addAlert`: unshift, incrementing `unreadCount` for an
unread alert. -/
def addAlert (st : AlertState) (a : Alert) : AlertState :=
  { st with
    alerts := a :: st.alerts
    unreadCount := if !a.isRead then st.unreadCount + 1 else st.unreadCount }

/-- `useAlertStore.updateAlert`: merge by id; adjust `unreadCount` when the
`isRead` field changes (`Math.max(0, c - 1)` is truncated subtraction on
`Nat`); keep `selectedAlert` in sync. -/
def updateAlert (st : AlertState) (alertId : String) (updates : AlertUpdate) :
    AlertState :=
  match jsFindIndex (fun a => a.id == alertId) st.alerts with
  | none => st
  | some i =>
    let old := st.alerts.getD i default
    let merged := mergeAlert old updates
    let cnt :=
      if jsIsReadNeq old.isRead updates.isRead then
        if updates.isRead.getD false then st.unreadCount - 1
        else st.unreadCount + 1
      else st.unreadCount
    let sel :=
      match st.selectedAlert with
      | some s => if s.id == alertId then some (mergeAlert s updates) else some s
      | none => none
    { st with alerts := st.alerts.set i merged, unreadCount := cnt, selectedAlert := sel }

/-- `useAlertStore.markAsRead`: delegates to `updateAlert` with
`{ isRead: true }`. -/
def markAsRead (st : AlertState) (alertId : String) : AlertState :=
  updateAlert st alertId ⟨some true, none⟩

/-- `useAlertStore.markAllAsRead`: flip every record's flag and zero the
counter. -/
def markAllAsRead (st : AlertState) : AlertState :=
  { st with
    alerts := st.alerts.map (fun a => { a with isRead := true })
    unreadCount := 0 }

/-! ## Metrics and UI-notification stores -/

structure MetricsState where
  metrics : Option DashboardMetrics
  isLoading : Bool
  lastUpdated : Option Nat
  error : Option String
deriving DecidableEq

/-- `useMetricsStore.setMetrics`. -/
def setMetrics (st : MetricsState) (m : DashboardMetrics) (now : Nat) : MetricsState :=
  { st with metrics := some m, lastUpdated := some now, error := none }

structure Notification where
  ntype : String
  title : String
  message : String
  duration : Option Nat
  id : String
  createdAt : Nat
deriving DecidableEq

structure NotificationInput where
  ntype : String
  title : String
  message : String
  duration : Option Nat
deriving DecidableEq

structure UIState where
  notifications : List Notification
deriving DecidableEq

/-- `useUIStore.addNotification`: assigns `Date.now().toString()` as id and
pushes; the auto-dismiss timer is a scheduling side effect outside this
state model. -/
def addNotification (st : UIState) (n : NotificationInput) (now : Nat) : UIState :=
  { st with notifications :=
      st.notifications ++ [⟨n.ntype, n.title, n.message, n.duration, toString now, now⟩] }

/-! ## WebSocket store (`useWebSocketStore`) and inbound events -/

/-- An inbound event's payload; the constructor determines the type tag
(spec section 3: "type tag determines payload shape").  `tripUpdateNull`
models a `trip_update` event whose payload is `null`: reading
`payload.id` in the router then raises a `TypeError`. -/
inductive WSPayload where
  | tripUpdate (id : String) (u : TripUpdate)
  | tripUpdateNull
  | driverLocation (driverId : String) (location : Coordinates)
  | driverStatus (driverId : String) (status : String) (availability : String)
  | newTripRequest (t : Trip)
  | alertCreated (a : Alert)
  | metricsUpdate (m : DashboardMetrics)
  | other (tag : String)
deriving DecidableEq

/-- The event's string type tag as it appears on the wire. -/
def msgType : WSPayload → String
  | .tripUpdate _ _ => "trip_update"
  | .tripUpdateNull => "trip_update"
  | .driverLocation _ _ => "driver_location_update"
  | .driverStatus _ _ _ => "driver_status_update"
  | .newTripRequest _ => "new_trip_request"
  | .alertCreated _ => "alert_created"
  | .metricsUpdate _ => "metrics_update"
  | .other tag => tag

structure WSMessage where
  payload : WSPayload
  timestamp : Nat
  tenantId : String
  userId : Option String
deriving DecidableEq

structure WSStoreState where
  isConnected : Bool
  lastMessage : Option WSMessage
  connectionError : Option String
deriving DecidableEq

/-- `useWebSocketStore.setConnected`: the error is cleared only when
flipping to connected. -/
def setConnected (st : WSStoreState) (connected : Bool) : WSStoreState :=
  { st with
    isConnected := connected
    connectionError := if connected then none else st.connectionError }

/-- `useWebSocketStore.setLastMessage`. -/
def setLastMessage (st : WSStoreState) (m : WSMessage) : WSStoreState :=
  { st with lastMessage := some m }

/-- `useWebSocketStore.setConnectionError`: records the error and
unconditionally flips `isConnected` to `false` — even when the "error"
being recorded is `null`. -/
def setConnectionError (st : WSStoreState) (error : Option String) : WSStoreState :=
  { st with connectionError := error, isConnected := false }

/-- The bundle of all Zustand stores the router can reach. -/
structure Stores where
  trip : TripState
  driver : DriverState
  alert : AlertState
  metrics : MetricsState
  ui : UIState
  ws : WSStoreState
deriving DecidableEq

/-- `useWebSocketStore.handleMessage`: record the message, then switch on
the type tag and apply the built-in domain-store action.  A `null` payload
on `trip_update` throws (`payload.id` on `null`), modelled as `.error`;
the `lastMessage` write has already happened by then. -/
def storeHandleMessage (st : Stores) (msg : WSMessage) (now : Nat) :
    Except Unit Stores :=
  let st := { st with ws := setLastMessage st.ws msg }
  match msg.payload with
  | .tripUpdate id u => .ok { st with trip := updateTrip st.trip id u now }
  | .tripUpdateNull => .error ()
  | .driverLocation did loc =>
    .ok { st with driver := updateDriver st.driver did ⟨none, none, some loc, some now⟩ now }
  | .driverStatus did status avail =>
    .ok { st with driver := updateDriver st.driver did ⟨some status, some avail, none, none⟩ now }
  | .newTripRequest t =>
    let st := { st with trip := addTrip st.trip t now }
    let n : NotificationInput :=
      ⟨"info", "New Trip Request", "Trip " ++ t.id ++ " has been requested", some 5000⟩
    .ok { st with ui := addNotification st.ui n now }
  | .alertCreated a =>
    let st := { st with alert := addAlert st.alert a }
    let n : NotificationInput :=
      ⟨if a.severity == "critical" then "error" else "warning", "New Alert", a.title,
        some 10000⟩
    .ok { st with ui := addNotification st.ui n now }
  | .metricsUpdate m => .ok { st with metrics := setMetrics st.metrics m now }
  | .other _ => .ok st

/-- Does the type tag have a built-in domain-store action? -/
def hasBuiltin : WSPayload → Bool
  | .other _ => false
  | _ => true

/-! ## Subscription registry (`WebSocketService.messageHandlers`)

The JS `Map<MessageType | 'all', MessageHandler[]>` is a list of
key/handler-list pairs with unique keys; handler functions are identified
by reference, modelled as `Nat`.  Whether a given handler throws when
invoked is behaviour, not identity, and is supplied separately to the
dispatcher as a function `beh : Nat → Bool`. -/

abbrev MessageHandlers : Type := List (String × List Nat)

/-- `map.get(k)` (`none` for a missing key). -/
def mhGet (m : MessageHandlers) (k : String) : Option (List Nat) :=
  (List.find? (fun p => p.1 == k) m).map Prod.snd

/-- `WebSocketService.subscribe`: create the key's list if missing, then
push the handler. -/
def subscribe (m : MessageHandlers) (k : String) (h : Nat) : MessageHandlers :=
  let m1 : MessageHandlers :=
    if (mhGet m k).isSome then m else List.append m [(k, [])]
  List.map (fun p => if p.1 == k then (p.1, p.2 ++ [h]) else p) m1

/-- The closure returned by `subscribe`: look up the captured key; if a
list exists, `splice` out the first occurrence of the captured handler
(`indexOf` + `splice(i, 1)`; nothing happens when `indexOf` is -1). -/
def unsubscribeAction (k : String) (h : Nat) (m : MessageHandlers) : MessageHandlers :=
  List.map (fun p => if p.1 == k then (p.1, removeFirst h p.2) else p) m

/-! ## Router dispatch (`WebSocketService.handleMessage`) -/

inductive Track where
  | typed
  | wildcard
deriving DecidableEq

/-- One observable step of a dispatch pass.  `invoked` records the stores
snapshot the handler can read (via `getState()`) at the moment of its
call; `caught` is a handler exception swallowed by the per-handler
`try/catch`; `dispatchErrorCaught` is the outer `catch` (log +
`handleError`). -/
inductive DispatchEv where
  | storeUpdated
  | invoked (t : Track) (h : Nat) (snapshot : Stores)
  | caught (t : Track) (h : Nat)
  | dispatchErrorCaught
deriving DecidableEq

/-- `WebSocketService.handleMessage`: `setLastMessage`, then the store's
built-in handling, then the per-type handlers, then the `'all'` handlers.
Each subscriber call is individually guarded; a throw from the store
handling aborts the pass into the outer `catch`, which calls
`handleError("Failed to process incoming message")`. -/
def svcHandleMessage (mh : MessageHandlers) (beh : Nat → Bool) (st : Stores)
    (msg : WSMessage) (now : Nat) : Stores × List DispatchEv :=
  let st1 := { st with ws := setLastMessage st.ws msg }
  match storeHandleMessage st1 msg now with
  | .error _ =>
    ({ st1 with ws := setConnectionError st1.ws (some "Failed to process incoming message") },
      [DispatchEv.dispatchErrorCaught])
  | .ok st2 =>
    let typeHandlers := (mhGet mh (msgType msg.payload)).getD []
    let allHandlers := (mhGet mh "all").getD []
    let typeEvs := typeHandlers.map (fun h =>
      if beh h then DispatchEv.caught Track.typed h else DispatchEv.invoked Track.typed h st2)
    let allEvs := allHandlers.map (fun h =>
      if beh h then DispatchEv.caught Track.wildcard h
      else DispatchEv.invoked Track.wildcard h st2)
    (st2, DispatchEv.storeUpdated :: (typeEvs ++ allEvs))

/-! ## Derived view (`getFilteredTrips`)

`getFilteredTrips` has two halves.  The first — six sequential
`if (criterion) filteredTrips = filteredTrips.filter(...)` steps — is
embedded below as `applyTripFilters`.  The second half,
`filteredTrips.sort(comparator)`, is not embedded: the comparator literal
(`aValue > bValue ? 1 : -1` ascending, `aValue < bValue ? 1 : -1`
descending) never returns 0, so it is not a consistent comparison
function, and the ECMAScript specification makes the resulting order
implementation-defined; no definition over the source can fix that order.
What the source does determine — and what matters to the specification's
"pure derived computation" requirement — is the sort's *target*:
`let filteredTrips = trips` only aliases the stored array, so when no
filter criterion is active no `.filter` call has produced a fresh array
and the in-place `sort` is applied to the store's own `trips` array.  The
Bool threaded through `applyTripFilters` records whether a fresh array
has been produced. -/

/-- The free-text search arm: lower-cased `includes` over id, rider names
and both addresses. -/
def tripSearchMatch (s : String) (t : Trip) : Bool :=
  let sl := s.toLower
  jsIncludes t.id.toLower sl ||
  jsIncludes t.rider.firstName.toLower sl ||
  jsIncludes t.rider.lastName.toLower sl ||
  jsIncludes t.pickup.address.toLower sl ||
  jsIncludes t.destination.address.toLower sl

/-- The filter half of `getFilteredTrips`.  The Bool records whether any
`.filter` call has produced a fresh array (false = the list handed on to
the in-place `sort` is still the store's own array). -/
def applyTripFilters (fs : TripFilters) (l : List Trip) : List Trip × Bool :=
  let ft0 : List Trip × Bool := (l, false)
  let ft1 : List Trip × Bool :=
    match fs.status with
    | some l => if l.length != 0 then (ft0.1.filter (fun (t : Trip) => l.contains t.status), true)
                else ft0
    | none => ft0
  let ft2 : List Trip × Bool :=
    match fs.serviceType with
    | some l => if l.length != 0 then (ft1.1.filter (fun (t : Trip) => l.contains t.serviceType), true)
                else ft1
    | none => ft1
  let ft3 : List Trip × Bool :=
    match fs.driverId with
    | some did =>
      if did != "" then
        (ft2.1.filter (fun (t : Trip) =>
          match t.driver with
          | some d => d.id == did
          | none => false), true)
      else ft2
    | none => ft2
  let ft4 : List Trip × Bool :=
    match fs.riderId with
    | some rid => if rid != "" then (ft3.1.filter (fun (t : Trip) => t.rider.id == rid), true)
                  else ft3
    | none => ft3
  let ft5 : List Trip × Bool :=
    match fs.dateRange with
    | some r =>
      (ft4.1.filter (fun (t : Trip) =>
        decide (r.1 ≤ t.requestedAt) && decide (t.requestedAt ≤ r.2)), true)
    | none => ft4
  let ft6 : List Trip × Bool :=
    match fs.search with
    | some s => if s != "" then (ft5.1.filter (tripSearchMatch s), true) else ft5
    | none => ft5
  ft6

/-! Specification-side restatement of the filter conjunction, used by the
theorems about the filter pipeline. -/

def statusPred (f : TripFilters) (t : Trip) : Bool :=
  match f.status with
  | some l => if l.length != 0 then l.contains t.status else true
  | none => true

def servicePred (f : TripFilters) (t : Trip) : Bool :=
  match f.serviceType with
  | some l => if l.length != 0 then l.contains t.serviceType else true
  | none => true

def driverPred (f : TripFilters) (t : Trip) : Bool :=
  match f.driverId with
  | some did =>
    if did != "" then
      match t.driver with
      | some d => d.id == did
      | none => false
    else true
  | none => true

def riderPred (f : TripFilters) (t : Trip) : Bool :=
  match f.riderId with
  | some rid => if rid != "" then t.rider.id == rid else true
  | none => true

def datePred (f : TripFilters) (t : Trip) : Bool :=
  match f.dateRange with
  | some r => decide (r.1 ≤ t.requestedAt) && decide (t.requestedAt ≤ r.2)
  | none => true

def searchPred (f : TripFilters) (t : Trip) : Bool :=
  match f.search with
  | some s => if s != "" then tripSearchMatch s t else true
  | none => true

/-- A trip passes every active criterion (inactive criteria constrain
nothing). -/
def tripPasses (f : TripFilters) (t : Trip) : Bool :=
  ((((statusPred f t && servicePred f t) && driverPred f t) && riderPred f t) &&
    datePred f t) && searchPred f t

def statusActive (f : TripFilters) : Bool :=
  match f.status with | some l => l.length != 0 | none => false

def serviceActive (f : TripFilters) : Bool :=
  match f.serviceType with | some l => l.length != 0 | none => false

def driverActive (f : TripFilters) : Bool :=
  match f.driverId with | some d => d != "" | none => false

def riderActive (f : TripFilters) : Bool :=
  match f.riderId with | some r => r != "" | none => false

def dateActive (f : TripFilters) : Bool :=
  match f.dateRange with | some _ => true | none => false

def searchActive (f : TripFilters) : Bool :=
  match f.search with | some s => s != "" | none => false

/-- At least one filter criterion is active (so at least one `.filter`
call produced a fresh array). -/
def anyTripFilterActive (f : TripFilters) : Bool :=
  ((((statusActive f || serviceActive f) || driverActive f) || riderActive f) ||
    dateActive f) || searchActive f

/-! ## Connection manager (`WebSocketService`)

The socket world is explicit: every transport ever created by `io(...)`
is recorded with its lifecycle flags, so that "exactly one live
transport" is a statement about the world rather than about a single
`Option` field.  `connect`'s body is `async` but contains no `await`, so
it runs synchronously and is modelled as one atomic transition. -/

def RECONNECT_ATTEMPTS : Nat := 5

def RECONNECT_DELAY : Nat := 3000

structure WSConfig where
  tenantId : String
  userId : String
  accessToken : String
deriving DecidableEq

structure Transport where
  sid : Nat
  closed : Bool
  connected : Bool
deriving DecidableEq

structure SvcState where
  socket : Option Nat
  config : Option WSConfig
  reconnectAttempts : Nat
  heartbeatOn : Bool
  isConnecting : Bool
  isInitialized : Bool
  sockets : List Transport
  nextSid : Nat
  store : WSStoreState
deriving DecidableEq

/-- Service construction state: no socket, no timers, empty world. -/
def initSvcState : SvcState :=
  ⟨none, none, 0, false, false, false, [], 0, ⟨false, none, none⟩⟩

/-- Is the current socket's handshake complete (`this.socket.connected`)? -/
def currentConnected (s : SvcState) : Bool :=
  match s.socket with
  | some sid =>
    match s.sockets.find? (fun (t : Transport) => t.sid == sid) with
    | some t => t.connected && !t.closed
    | none => false
  | none => false

/-- The sids of the transports in `l` not yet torn down. -/
def liveSidsL (l : List Transport) : List Nat :=
  (l.filter (fun (t : Transport) => !t.closed)).map Transport.sid

/-- The transports not yet torn down. -/
def liveSids (s : SvcState) : List Nat :=
  liveSidsL s.sockets

/-- `handleError`: records the message in the shared store (which also
flips `isConnected` off) and notifies external error callbacks. -/
def handleError (s : SvcState) (msg : String) : SvcState :=
  { s with store := setConnectionError s.store (some msg) }

inductive ReconnectOutcome where
  | scheduled (delay : Nat)
  | terminalError
deriving DecidableEq

/-- `scheduleReconnect`: below the cap, schedule a timer after
`RECONNECT_DELAY * 2 ^ attempts` and increment the counter; at the cap,
surface a terminal error and schedule nothing. -/
def scheduleReconnect (s : SvcState) : SvcState × ReconnectOutcome :=
  if s.reconnectAttempts ≥ RECONNECT_ATTEMPTS then
    (handleError s "Max reconnection attempts reached", ReconnectOutcome.terminalError)
  else
    let delay := RECONNECT_DELAY * 2 ^ s.reconnectAttempts
    ({ s with reconnectAttempts := s.reconnectAttempts + 1 }, ReconnectOutcome.scheduled delay)

/-- The `disconnect` socket event handler: stop the heartbeat, flip the
store off, and — only for reasons other than the client-initiated
`'io client disconnect'`, and only with a config present — run
`scheduleReconnect`. -/
def onDisconnectEvent (s : SvcState) (reason : String) : SvcState × Option ReconnectOutcome :=
  let s := { s with heartbeatOn := false }
  let s := { s with store := setConnected s.store false }
  if (reason != "io client disconnect") && s.config.isSome then
    let (s, o) := scheduleReconnect s
    (s, some o)
  else (s, none)

/-- `this.socket.disconnect()` at the transport level: mark the transport
torn down; when its handshake had completed, the socket emits
`disconnect` with reason `'io client disconnect'`, running the handler
above synchronously. -/
def socketDisconnect (s : SvcState) (sid : Nat) : SvcState × Option ReconnectOutcome :=
  let wasConnected :=
    match s.sockets.find? (fun (t : Transport) => t.sid == sid) with
    | some t => t.connected && !t.closed
    | none => false
  let s := { s with sockets := s.sockets.map (fun (t : Transport) =>
    if t.sid == sid then { t with closed := true, connected := false } else t) }
  if wasConnected then onDisconnectEvent s "io client disconnect" else (s, none)

inductive TransportEv where
  | toreDown (sid : Nat)
  | established (sid : Nat)
deriving DecidableEq

/-- `WebSocketService.connect`: no-op when already connecting or when the
current socket's handshake is complete; otherwise tear down any existing
transport, create a fresh one via `io(...)` (handshake pending), install
listeners, and optimistically flip the store to connected.  The `finally`
clears `isConnecting`. -/
def connect (s : SvcState) (cfg : WSConfig) : SvcState × List TransportEv :=
  if s.isConnecting || currentConnected s then (s, [])
  else
    let s := { s with isConnecting := true, config := some cfg }
    let (s, evs) :=
      match s.socket with
      | some sid =>
        let (s, _) := socketDisconnect s sid
        (s, [TransportEv.toreDown sid])
      | none => (s, ([] : List TransportEv))
    let sid := s.nextSid
    let s := { s with
      sockets := s.sockets ++ [(⟨sid, false, false⟩ : Transport)]
      nextSid := sid + 1
      socket := some sid
      isInitialized := true }
    let s := { s with store := setConnected s.store true }
    ({ s with isConnecting := false }, evs ++ [TransportEv.established sid])

/-- The `connect` socket event handler (successful handshake): zero the
attempt counter, start the heartbeat, notify connection callbacks, then
`setConnected(true)` followed by `setConnectionError(null)`. -/
def onConnectEvent (s : SvcState) : SvcState :=
  match s.socket with
  | none => s
  | some sid =>
    let s := { s with sockets := s.sockets.map (fun (t : Transport) =>
      if t.sid == sid then { t with connected := true } else t) }
    let s := { s with reconnectAttempts := 0, heartbeatOn := true }
    let s := { s with store := setConnected s.store true }
    { s with store := setConnectionError s.store none }

/-- `WebSocketService.disconnect`: tear down the socket, clear the
heartbeat, reset the counter and flags, flip the store off.  Returns any
reconnect outcome produced along the way (there is none: the teardown
reason is client-initiated). -/
def svcDisconnect (s : SvcState) : SvcState × Option ReconnectOutcome :=
  let (s, o) :=
    match s.socket with
    | some sid =>
      let (s, o) := socketDisconnect s sid
      ({ s with socket := none }, o)
    | none => (s, none)
  let s := { s with heartbeatOn := false }
  let s := { s with reconnectAttempts := 0, isConnecting := false, isInitialized := false }
  ({ s with store := setConnected s.store false }, o)

/-- The `auth_error` socket event handler: surface the error, then a full
`disconnect()` — no reconnect is ever scheduled on this path. -/
def onAuthErrorEvent (s : SvcState) (error : String) : SvcState × Option ReconnectOutcome :=
  let s := handleError s ("Authentication failed: " ++ error)
  svcDisconnect s

/-! ## Operation sequences and auxiliary predicates used by the theorems -/

/-- The Alert-store operations covered by the unread-counter claim. -/
inductive AlertOp where
  | add (a : Alert)
  | markRead (id : String)
  | markAll
deriving DecidableEq

def applyAlertOp (st : AlertState) : AlertOp → AlertState
  | .add a => addAlert st a
  | .markRead id => markAsRead st id
  | .markAll => markAllAsRead st

def applyAlertOps (st : AlertState) (ops : List AlertOp) : AlertState :=
  ops.foldl applyAlertOp st

/-- The unread counter agrees with the number of records whose `isRead`
is false. -/
def alertInv (st : AlertState) : Prop :=
  st.unreadCount = (st.alerts.filter (fun a => !a.isRead)).length

/-- `k` consecutive runs of `scheduleReconnect` (one per consecutive
unexpected disconnect). -/
def schedIter (s : SvcState) : Nat → SvcState
  | 0 => s
  | k + 1 => (scheduleReconnect (schedIter s k)).1

/-- The outcome of the `n`-th consecutive `scheduleReconnect` call
(`n ≥ 1`). -/
def nthReconnectOutcome (s : SvcState) (n : Nat) : ReconnectOutcome :=
  (scheduleReconnect (schedIter s (n - 1))).2

/-- Does the built-in store handling of this payload throw (`payload.id`
on a `null` payload)? -/
def storeThrows : WSPayload → Bool
  | .tripUpdateNull => true
  | _ => false

/-- Well-formedness of the service state between event-loop turns: no
`connect` call is mid-body, transport sids are distinct and below the
allocation counter, and the live transports are exactly the one the
`socket` field points to. -/
def svcWf (s : SvcState) : Prop :=
  s.isConnecting = false ∧
  s.sockets.Pairwise (fun a b => a.sid ≠ b.sid) ∧
  (∀ t ∈ s.sockets, t.sid < s.nextSid) ∧
  (match s.socket with
   | some sid => liveSids s = [sid] ∧ sid < s.nextSid
   | none => liveSids s = [])

/-! ## Concrete fixtures for witnesses and counterexamples -/

def exTrip1 : Trip :=
  ⟨"t1", "pending", "standard", none, ⟨"r1", "Ann", "Lee"⟩, ⟨"1 Main St"⟩,
    ⟨"2 Oak Ave"⟩, 1, 10⟩

def exTrip2 : Trip :=
  ⟨"t2", "active", "standard", some ⟨"d1"⟩, ⟨"r2", "Bob", "Kim"⟩, ⟨"3 Pine Rd"⟩,
    ⟨"4 Elm Ct"⟩, 2, 5⟩

def exNoFilters : TripFilters := ⟨none, none, none, none, none, none⟩

def exTripState : TripState :=
  ⟨[exTrip1, exTrip2], none, exNoFilters, ⟨SortField.requestedAt, SortDir.desc⟩,
    false, none⟩

def exDriverState : DriverState :=
  ⟨[⟨"d1", "Cara", "active", "available", true, none, none⟩], none,
    ⟨SortField.fare, SortDir.asc⟩, false, none⟩

def exAlert1 : Alert := ⟨"a1", "Overheat", "critical", false⟩

def exAlertState : AlertState := ⟨[], 0, none, false⟩

def exStores : Stores :=
  ⟨exTripState, exDriverState, exAlertState, ⟨none, false, none, none⟩, ⟨[]⟩,
    ⟨false, none, none⟩⟩

def exCfg : WSConfig := ⟨"tenant-1", "user-1", "token-1"⟩

def exCfg2 : WSConfig := ⟨"tenant-1", "user-1", "token-2"⟩

def exMsg : WSMessage :=
  ⟨WSPayload.tripUpdate "t1" ⟨some "assigned", none, none⟩, 5, "tenant-1", none⟩

def exMsgNull : WSMessage := ⟨WSPayload.tripUpdateNull, 5, "tenant-1", none⟩

/-- Handler 4 subscribed to `trip_update`, handler 9 to the wildcard. -/
def exRegistry : MessageHandlers := subscribe (subscribe [] "trip_update" 4) "all" 9

/-- The same handler function (reference 7) subscribed twice to the same
type tag. -/
def exDupRegistry : MessageHandlers :=
  subscribe (subscribe [] "trip_update" 7) "trip_update" 7

/-- Two `connect` calls in succession; `b` says whether the first call's
transport completed its handshake (the socket `connect` event fired)
before the second call was issued. -/
def twoConnects (s : SvcState) (cfg1 cfg2 : WSConfig) (b : Bool) :
    SvcState × List TransportEv :=
  connect (if b then onConnectEvent (connect s cfg1).1 else (connect s cfg1).1) cfg2

/-! # Theorems -/

/-! ## Helper lemmas about the JS primitives -/

theorem jsFindIndex_eq_none {α : Type} (p : α → Bool) (l : List α)
    (h : ∀ x ∈ l, p x = false) : jsFindIndex p l = none := by
  induction l with
  | nil => rfl
  | cons x xs ih =>
    simp only [jsFindIndex, h x (List.mem_cons_self x xs), Bool.false_eq_true, if_false,
      ih fun y hy => h y (List.mem_cons_of_mem x hy), Option.map_none']

theorem jsFindIndex_some {α : Type} [Inhabited α] (p : α → Bool) (l : List α) (i : Nat)
    (h : jsFindIndex p l = some i) : i < l.length ∧ p (l.getD i default) = true := by
  induction l generalizing i with
  | nil => simp [jsFindIndex] at h
  | cons x xs ih =>
    by_cases hp : p x
    · simp only [jsFindIndex, hp, if_true, Option.some.injEq] at h
      subst h
      simpa using hp
    · simp only [jsFindIndex, hp, Bool.false_eq_true, if_false, Option.map_eq_some'] at h
      obtain ⟨j, hj, rfl⟩ := h
      obtain ⟨h1, h2⟩ := ih j hj
      refine ⟨by simpa using Nat.succ_lt_succ h1, ?_⟩
      simpa using h2

/-! ## C10 -/

/-- C10: `updateTrip` (resp. `updateDriver`) called with an id absent from
the collection leaves the entire store state unchanged — the collection,
the selected record, `lastUpdated`, the filters, the sort options and the
loading flag. -/
theorem update_absent_id_noop (ts : TripState) (tid : String) (tu : TripUpdate) (tn : Nat)
    (ds : DriverState) (did : String) (du : DriverUpdate) (dn : Nat)
    (ht : ∀ t ∈ ts.trips, t.id ≠ tid) (hd : ∀ d ∈ ds.drivers, d.id ≠ did) :
    updateTrip ts tid tu tn = ts ∧ updateDriver ds did du dn = ds := by
  have h1 : jsFindIndex (fun (t : Trip) => t.id == tid) ts.trips = none :=
    jsFindIndex_eq_none _ _ fun t htm => by simpa using ht t htm
  have h2 : jsFindIndex (fun (d : Driver) => d.id == did) ds.drivers = none :=
    jsFindIndex_eq_none _ _ fun d hdm => by simpa using hd d hdm
  constructor
  · unfold updateTrip
    rw [h1]
  · unfold updateDriver
    rw [h2]

/-- Witness for C10 at a concrete store and id. -/
theorem update_absent_id_noop_witness :
    updateTrip exTripState "missing" ⟨some "assigned", none, none⟩ 3 = exTripState ∧
      updateDriver exDriverState "missing" ⟨some "offline", none, none, none⟩ 3 =
        exDriverState :=
  update_absent_id_noop exTripState "missing" ⟨some "assigned", none, none⟩ 3
    exDriverState "missing" ⟨some "offline", none, none, none⟩ 3
    (by decide) (by decide)

/-! ## C3 -/

/-- C3: an `auth_error` event never schedules a reconnect attempt; the
service performs a full disconnect instead — transport closed, heartbeat
stopped, attempt counter reset, store flipped to disconnected — so only a
manual `connect` call can resume the session. -/
theorem auth_error_never_schedules_reconnect (s : SvcState) (err : String) :
    (onAuthErrorEvent s err).2 = none ∧
      (onAuthErrorEvent s err).1.socket = none ∧
      (onAuthErrorEvent s err).1.heartbeatOn = false ∧
      (onAuthErrorEvent s err).1.reconnectAttempts = 0 ∧
      (onAuthErrorEvent s err).1.store.isConnected = false := by
  unfold onAuthErrorEvent svcDisconnect socketDisconnect onDisconnectEvent handleError
  cases hs : s.socket with
  | none => simp [hs, setConnected]
  | some sid =>
    simp only [hs]
    split <;> simp [setConnected]

/-! ## C4 -/

/-- C4 (code bug): after a successful handshake the attempt counter is
zero and no connection error is recorded, but the shared store reports
`isConnected = false`, not `true` as the specification states: the
`connect` handler runs `setConnected(true)` and then
`setConnectionError(null)`, and `setConnectionError` unconditionally flips
`isConnected` off. -/
theorem handshake_leaves_store_disconnected :
    (onConnectEvent (connect initSvcState exCfg).1).reconnectAttempts = 0 ∧
      (onConnectEvent (connect initSvcState exCfg).1).store.connectionError = none ∧
      (onConnectEvent (connect initSvcState exCfg).1).store.isConnected = false := by
  decide

/-! ## C2 -/

theorem schedIter_attempts_le (s : SvcState) (h : s.reconnectAttempts = 0) :
    ∀ k, k ≤ RECONNECT_ATTEMPTS → (schedIter s k).reconnectAttempts = k := by
  intro k
  induction k with
  | zero => intro _; simpa [schedIter]
  | succ k ih =>
    intro hk
    have hk5 : k ≤ RECONNECT_ATTEMPTS := Nat.le_of_succ_le hk
    have ha := ih hk5
    have hif : ¬ RECONNECT_ATTEMPTS ≤ k := by
      unfold RECONNECT_ATTEMPTS at hk ⊢
      omega
    simp [schedIter, scheduleReconnect, ha, hif]

theorem schedIter_attempts_ge (s : SvcState) (h : s.reconnectAttempts = 0) :
    ∀ k, RECONNECT_ATTEMPTS ≤ k → (schedIter s k).reconnectAttempts = RECONNECT_ATTEMPTS := by
  intro k
  induction k with
  | zero => intro hk; simp [RECONNECT_ATTEMPTS] at hk
  | succ k ih =>
    intro hk
    rcases Nat.lt_or_ge k RECONNECT_ATTEMPTS with hlt | hge
    · have heq : k + 1 = RECONNECT_ATTEMPTS := by omega
      rw [← heq]
      exact schedIter_attempts_le s h (k + 1) (Nat.le_of_eq heq)
    · have ha := ih hge
      have hcap : (schedIter s k).reconnectAttempts ≥ RECONNECT_ATTEMPTS := by
        rw [ha]
      simp [schedIter, scheduleReconnect, hcap, ha, handleError]

/-- C2: starting from a freshly connected state (attempt counter zero),
the `N`-th consecutive reconnect attempt (1 ≤ N ≤ 5) is scheduled after
`RECONNECT_DELAY * 2 ^ (N − 1)`; from the sixth consecutive unexpected
disconnect on, nothing is scheduled and a terminal connection error is
surfaced instead. -/
theorem reconnect_backoff_schedule (s : SvcState) (h0 : s.reconnectAttempts = 0)
    (N : Nat) (h1 : 1 ≤ N) :
    (N ≤ RECONNECT_ATTEMPTS →
      nthReconnectOutcome s N = ReconnectOutcome.scheduled (RECONNECT_DELAY * 2 ^ (N - 1))) ∧
    (RECONNECT_ATTEMPTS + 1 ≤ N → nthReconnectOutcome s N = ReconnectOutcome.terminalError) := by
  constructor
  · intro hN
    have ha : (schedIter s (N - 1)).reconnectAttempts = N - 1 :=
      schedIter_attempts_le s h0 (N - 1) (by omega)
    have hif : ¬ RECONNECT_ATTEMPTS ≤ N - 1 := by
      unfold RECONNECT_ATTEMPTS at hN ⊢
      omega
    simp [nthReconnectOutcome, scheduleReconnect, ha, hif]
  · intro hN
    have ha : (schedIter s (N - 1)).reconnectAttempts = RECONNECT_ATTEMPTS :=
      schedIter_attempts_ge s h0 (N - 1) (by omega)
    simp [nthReconnectOutcome, scheduleReconnect, ha]

/-- Witness for C2: the 4th attempt is scheduled after 3000 · 2³ = 24000
and the 6th call surfaces the terminal error. -/
theorem reconnect_backoff_schedule_witness :
    nthReconnectOutcome initSvcState 4 = ReconnectOutcome.scheduled 24000 ∧
      nthReconnectOutcome initSvcState 6 = ReconnectOutcome.terminalError :=
  ⟨by
    have h := (reconnect_backoff_schedule initSvcState rfl 4 (by decide)).1 (by decide)
    simpa using h,
   (reconnect_backoff_schedule initSvcState rfl 6 (by decide)).2 (by decide)⟩

/-! ## C7 -/

theorem length_filter_set {α : Type} [Inhabited α] (l : List α) (i : Nat) (x : α)
    (p : α → Bool) (hi : i < l.length) :
    ((l.set i x).filter p).length + (if p (l.getD i default) then 1 else 0)
      = (l.filter p).length + (if p x then 1 else 0) := by
  induction l generalizing i with
  | nil => simp at hi
  | cons a as ih =>
    cases i with
    | zero =>
      cases hp : p a <;> cases hx : p x <;>
        simp [List.set_cons_zero, List.getD_cons_zero, List.filter_cons, hp, hx]
    | succ j =>
      have hj : j < as.length := by simpa using hi
      have hrec := ih j hj
      simp only [List.set_cons_succ, List.getD_cons_succ, List.filter_cons] at hrec ⊢
      cases hp : p a <;> simp [hp] at hrec ⊢ <;> omega

theorem alertInv_addAlert (st : AlertState) (a : Alert) (h : alertInv st) :
    alertInv (addAlert st a) := by
  unfold alertInv addAlert at *
  cases hr : a.isRead <;> simp [List.filter_cons, hr, h]

theorem alertInv_markAsRead (st : AlertState) (id : String) (h : alertInv st) :
    alertInv (markAsRead st id) := by
  unfold markAsRead updateAlert
  cases hf : jsFindIndex (fun (a : Alert) => a.id == id) st.alerts with
  | none => exact h
  | some i =>
    obtain ⟨hi, hp⟩ := jsFindIndex_some _ _ _ hf
    unfold alertInv at h ⊢
    have hmem : st.alerts.getD i default ∈ st.alerts := by
      rw [List.getD_eq_getElem st.alerts default hi]
      exact List.getElem_mem hi
    have hset := length_filter_set st.alerts i
      (mergeAlert (st.alerts.getD i default) ⟨some true, none⟩) (fun a => !a.isRead) hi
    dsimp only
    generalize hold : st.alerts.getD i default = old at hset hmem ⊢
    cases hr : old.isRead with
    | true =>
      simp [mergeAlert, hr] at hset
      simp [jsIsReadNeq, mergeAlert, hr, h, hset]
    | false =>
      have hfmem : old ∈ st.alerts.filter (fun a => !a.isRead) :=
        List.mem_filter.mpr ⟨hmem, by simp [hr]⟩
      have hpos : 0 < (st.alerts.filter (fun a => !a.isRead)).length :=
        List.length_pos_of_mem hfmem
      simp [mergeAlert, hr] at hset
      simp [jsIsReadNeq, mergeAlert, hr, h]
      omega

theorem alertInv_markAllAsRead (st : AlertState) : alertInv (markAllAsRead st) := by
  unfold alertInv markAllAsRead
  have hnil : List.filter (fun a => !a.isRead)
      (st.alerts.map (fun a => { a with isRead := true })) = [] := by
    rw [List.filter_map]
    have hcomp : ((fun (a : Alert) => !a.isRead) ∘ (fun (a : Alert) => { a with isRead := true }))
        = fun _ => false := by
      funext a
      simp [Function.comp]
    rw [hcomp, List.filter_false, List.map_nil]
  simp [hnil]

/-- C7: for any sequence of `addAlert` / `markAsRead` / `markAllAsRead`
operations applied to an Alert-store state whose counter is consistent,
`unreadCount` equals the number of records with `isRead = false` after
every operation. -/
theorem alert_unread_counter_consistent (ops : List AlertOp) (st : AlertState)
    (h : alertInv st) : alertInv (applyAlertOps st ops) := by
  induction ops generalizing st with
  | nil => exact h
  | cons op ops ih =>
    have hstep : alertInv (applyAlertOp st op) := by
      cases op with
      | add a => exact alertInv_addAlert st a h
      | markRead id => exact alertInv_markAsRead st id h
      | markAll => exact alertInv_markAllAsRead st
    exact ih (applyAlertOp st op) hstep

/-- Witness for C7: a concrete add / mark-read / add / mark-all run. -/
theorem alert_unread_counter_consistent_witness :
    alertInv exAlertState ∧
      alertInv (applyAlertOps exAlertState
        [AlertOp.add exAlert1, AlertOp.markRead "a1", AlertOp.add exAlert1,
          AlertOp.markAll]) :=
  ⟨by unfold alertInv; decide,
   alert_unread_counter_consistent _ _ (by unfold alertInv; decide)⟩

/-! ## C8 -/

theorem removeFirst_not_mem (h : Nat) (l : List Nat) (hnm : h ∉ l) :
    removeFirst h l = l := by
  induction l with
  | nil => rfl
  | cons x xs ih =>
    have hxb : (x == h) = false := by
      simp only [beq_eq_false_iff_ne, ne_eq]
      intro he
      exact hnm (he ▸ List.mem_cons_self x xs)
    simp [removeFirst, hxb, ih fun hm => hnm (List.mem_cons_of_mem x hm)]

theorem removeFirst_count_le_one (h : Nat) (l : List Nat) (hc : l.count h ≤ 1) :
    removeFirst h (removeFirst h l) = removeFirst h l := by
  induction l with
  | nil => rfl
  | cons x xs ih =>
    by_cases hx : x = h
    · subst hx
      have hcc : (x :: xs).count x = xs.count x + 1 := List.count_cons_self x xs
      have hcount : xs.count x = 0 := by omega
      have hnm : x ∉ xs := List.count_eq_zero.mp hcount
      simp [removeFirst, removeFirst_not_mem x xs hnm]
    · have hxb : (x == h) = false := by simpa using hx
      have hc2 : xs.count h ≤ 1 := by
        have hcc := List.count_cons h x xs
        simp only [hxb, Bool.false_eq_true, if_false, Nat.add_zero] at hcc
        omega
      simp [removeFirst, hxb, ih hc2]

theorem removeFirst_count_other (h g : Nat) (l : List Nat) (hg : g ≠ h) :
    (removeFirst h l).count g = l.count g := by
  induction l with
  | nil => rfl
  | cons x xs ih =>
    by_cases hx : x = h
    · subst hx
      have hxg : (x == g) = false := by
        simp only [beq_eq_false_iff_ne, ne_eq]
        intro he
        exact hg he.symm
      simp [removeFirst, List.count_cons, hxg]
    · have hxb : (x == h) = false := by simpa using hx
      simp [removeFirst, hxb, List.count_cons, ih]

theorem unsub_cons (k : String) (h : Nat) (p : String × List Nat) (m : MessageHandlers) :
    unsubscribeAction k h (p :: m)
      = (if p.1 == k then (p.1, removeFirst h p.2) else p) :: unsubscribeAction k h m := rfl

theorem mhGet_cons_pos (p : String × List Nat) (m : MessageHandlers) (k2 : String)
    (hp : (p.1 == k2) = true) : mhGet (p :: m) k2 = some p.2 := by
  unfold mhGet
  rw [List.find?_cons_of_pos _ (by exact hp)]
  rfl

theorem mhGet_cons_neg (p : String × List Nat) (m : MessageHandlers) (k2 : String)
    (hp : (p.1 == k2) = false) : mhGet (p :: m) k2 = mhGet m k2 := by
  unfold mhGet
  rw [List.find?_cons_of_neg _ (by simp [hp])]

theorem unsub_noop (k : String) (h : Nat) (m : MessageHandlers)
    (hno : ∀ p ∈ m, (p.1 == k) = false) : unsubscribeAction k h m = m := by
  induction m with
  | nil => rfl
  | cons p m ih =>
    have h1 := hno p (List.mem_cons_self p m)
    have h2 := ih fun q hq => hno q (List.mem_cons_of_mem p hq)
    rw [unsub_cons, if_neg (by simp [h1]), h2]

theorem mhGet_unsub_self (m : MessageHandlers) (k : String) (h : Nat) :
    mhGet (unsubscribeAction k h m) k = (mhGet m k).map (removeFirst h) := by
  induction m with
  | nil => rfl
  | cons p m ih =>
    rw [unsub_cons]
    by_cases hpk : (p.1 == k) = true
    · rw [if_pos hpk, mhGet_cons_pos _ _ _ (by exact hpk), mhGet_cons_pos _ _ _ (by exact hpk)]
      rfl
    · have hpkf : (p.1 == k) = false := by simpa using hpk
      rw [if_neg (by simp [hpkf]), mhGet_cons_neg _ _ _ hpkf, mhGet_cons_neg _ _ _ hpkf,
        ih]

theorem mhGet_unsub_other (m : MessageHandlers) (k : String) (h : Nat) (k2 : String)
    (hne : k2 ≠ k) : mhGet (unsubscribeAction k h m) k2 = mhGet m k2 := by
  induction m with
  | nil => rfl
  | cons p m ih =>
    rw [unsub_cons]
    by_cases hpk : (p.1 == k) = true
    · have hpe : p.1 = k := by simpa using hpk
      have hp2 : (p.1 == k2) = false := by
        simp only [beq_eq_false_iff_ne, ne_eq, hpe]
        exact fun he => hne he.symm
      rw [if_pos hpk, mhGet_cons_neg _ _ _ (by exact hp2), mhGet_cons_neg _ _ _ (by exact hp2), ih]
    · have hpkf : (p.1 == k) = false := by simpa using hpk
      rw [if_neg (by simp [hpkf])]
      by_cases hp2 : (p.1 == k2) = true
      · rw [mhGet_cons_pos _ _ _ (by exact hp2), mhGet_cons_pos _ _ _ (by exact hp2)]
      · have hp2f : (p.1 == k2) = false := by simpa using hp2
        rw [mhGet_cons_neg _ _ _ (by exact hp2f), mhGet_cons_neg _ _ _ (by exact hp2f), ih]

/-- C8 counterexample: register the same handler function (7) twice for
`trip_update`; calling the unsubscribe closure of one registration twice
removes both registrations, so it does not have the same effect as
calling it once. -/
theorem duplicate_subscribe_unsubscribe_twice :
    unsubscribeAction "trip_update" 7 (unsubscribeAction "trip_update" 7 exDupRegistry) ≠
      unsubscribeAction "trip_update" 7 exDupRegistry := by
  decide

/-- C8 (amended): when the registrations of a tag are distinct handler
functions (the handler occurs at most once in the tag's list), the
returned unsubscribe closure is idempotent — calling it twice equals
calling it once — and each call removes no registration other than the
one it was returned for (other tags and other handlers are untouched, and
no error is raised: the action is a total function).  When the same
handler is registered more than once for the same tag, each call removes
the first remaining occurrence, so a second call removes a sibling
registration. -/
theorem unsubscribe_idempotent_exact (m : MessageHandlers) (k : String) (h : Nat)
    (hkeys : m.Pairwise (fun p q => p.1 ≠ q.1))
    (hcount : ((mhGet m k).getD []).count h ≤ 1) :
    unsubscribeAction k h (unsubscribeAction k h m) = unsubscribeAction k h m ∧
      (∀ k2, k2 ≠ k → mhGet (unsubscribeAction k h m) k2 = mhGet m k2) ∧
      (∀ g, g ≠ h → ((mhGet (unsubscribeAction k h m) k).getD []).count g
          = ((mhGet m k).getD []).count g) := by
  refine ⟨?_, fun k2 hne => mhGet_unsub_other m k h k2 hne, fun g hg => ?_⟩
  · induction m with
    | nil => rfl
    | cons p m ih =>
      by_cases hpk : (p.1 == k) = true
      · have hpe : p.1 = k := by simpa using hpk
        have hno : ∀ q ∈ m, (q.1 == k) = false := by
          intro q hq
          have hne := (List.pairwise_cons.mp hkeys).1 q hq
          simp only [beq_eq_false_iff_ne, ne_eq]
          intro he
          exact hne (hpe.trans he.symm)
        have hm := unsub_noop k h m hno
        have hcnt : p.2.count h ≤ 1 := by
          rw [mhGet_cons_pos _ _ _ (by exact hpk)] at hcount
          simpa using hcount
        have hrf := removeFirst_count_le_one h p.2 hcnt
        have e1 : unsubscribeAction k h (p :: m) = (p.1, removeFirst h p.2) :: m := by
          rw [unsub_cons, if_pos hpk, hm]
        rw [e1, unsub_cons, if_pos hpk, hm, hrf]
      · have hpkf : (p.1 == k) = false := by simpa using hpk
        have hkt := (List.pairwise_cons.mp hkeys).2
        have hcnt2 : ((mhGet m k).getD []).count h ≤ 1 := by
          rw [mhGet_cons_neg _ _ _ (by exact hpkf)] at hcount
          exact hcount
        have ihm := ih hkt hcnt2
        rw [unsub_cons, if_neg (by simp [hpkf]), unsub_cons, if_neg (by simp [hpkf]), ihm]
  · rw [mhGet_unsub_self]
    cases hk : mhGet m k with
    | none => simp
    | some l => simpa using removeFirst_count_other h g l hg

/-- Witness for C8 (amended) at a registry with distinct registrations. -/
theorem unsubscribe_idempotent_exact_witness :
    exRegistry.Pairwise (fun p q => p.1 ≠ q.1) ∧
      ((mhGet exRegistry "trip_update").getD []).count 4 ≤ 1 ∧
      unsubscribeAction "trip_update" 4 (unsubscribeAction "trip_update" 4 exRegistry) =
        unsubscribeAction "trip_update" 4 exRegistry :=
  ⟨by decide, by decide,
    (unsubscribe_idempotent_exact exRegistry "trip_update" 4 (by decide) (by decide)).1⟩

/-! ## C5 and C6 -/

theorem storeHandleMessage_ok_exists (st : Stores) (msg : WSMessage) (now : Nat)
    (h : storeThrows msg.payload = false) :
    ∃ st2, storeHandleMessage st msg now = Except.ok st2 := by
  unfold storeHandleMessage
  cases hp : msg.payload with
  | tripUpdateNull => rw [hp] at h; simp [storeThrows] at h
  | tripUpdate id u => exact ⟨_, rfl⟩
  | driverLocation did loc => exact ⟨_, rfl⟩
  | driverStatus did s a => exact ⟨_, rfl⟩
  | newTripRequest t => exact ⟨_, rfl⟩
  | alertCreated a => exact ⟨_, rfl⟩
  | metricsUpdate mtr => exact ⟨_, rfl⟩
  | other tag => exact ⟨_, rfl⟩

theorem svcHandleMessage_ok_shape (mh : MessageHandlers) (beh : Nat → Bool) (st : Stores)
    (msg : WSMessage) (now : Nat) (st2 : Stores)
    (h : storeHandleMessage { st with ws := setLastMessage st.ws msg } msg now
      = Except.ok st2) :
    svcHandleMessage mh beh st msg now =
      (st2, DispatchEv.storeUpdated ::
        (((mhGet mh (msgType msg.payload)).getD []).map (fun hh =>
          if beh hh then DispatchEv.caught Track.typed hh
          else DispatchEv.invoked Track.typed hh st2) ++
        ((mhGet mh "all").getD []).map (fun hh =>
          if beh hh then DispatchEv.caught Track.wildcard hh
          else DispatchEv.invoked Track.wildcard hh st2))) := by
  unfold svcHandleMessage
  dsimp only
  rw [h]

/-- C5: for an event whose type tag has a built-in store action (and whose
built-in handling does not throw), the built-in domain-store update
completes before any subscriber is notified — the dispatch trace starts
with the store update — and the stores snapshot visible to every invoked
subscriber (wildcard ones included) is exactly the final, post-update
store bundle, which is the result of the built-in store handling. -/
theorem builtin_update_precedes_wildcard_dispatch (mh : MessageHandlers) (beh : Nat → Bool)
    (st : Stores) (msg : WSMessage) (now : Nat)
    (hb : hasBuiltin msg.payload = true) (hok : storeThrows msg.payload = false) :
    (∃ rest, (svcHandleMessage mh beh st msg now).2 = DispatchEv.storeUpdated :: rest) ∧
      (∀ tr hh snap, DispatchEv.invoked tr hh snap ∈ (svcHandleMessage mh beh st msg now).2 →
        snap = (svcHandleMessage mh beh st msg now).1) ∧
      Except.ok (svcHandleMessage mh beh st msg now).1
        = storeHandleMessage { st with ws := setLastMessage st.ws msg } msg now := by
  obtain ⟨st2, h2⟩ := storeHandleMessage_ok_exists _ msg now hok
  rw [svcHandleMessage_ok_shape mh beh st msg now st2 h2]
  refine ⟨⟨_, rfl⟩, ?_, by rw [h2]⟩
  intro tr hh snap hmem
  simp only [List.mem_cons, List.mem_append, List.mem_map] at hmem
  rcases hmem with h1 | ⟨x, _, hfx⟩ | ⟨x, _, hfx⟩
  · exact absurd h1 (by simp)
  · by_cases hbx : beh x
    · simp [hbx] at hfx
    · simp only [hbx, Bool.false_eq_true, if_false, DispatchEv.invoked.injEq] at hfx
      exact hfx.2.2.symm
  · by_cases hbx : beh x
    · simp [hbx] at hfx
    · simp only [hbx, Bool.false_eq_true, if_false, DispatchEv.invoked.injEq] at hfx
      exact hfx.2.2.symm

/-- Witness for C5 at a trip-update event with one typed and one wildcard
subscriber. -/
theorem builtin_update_precedes_wildcard_dispatch_witness :
    hasBuiltin exMsg.payload = true ∧ storeThrows exMsg.payload = false ∧
      (∃ rest, (svcHandleMessage exRegistry (fun _ => false) exStores exMsg 9).2
        = DispatchEv.storeUpdated :: rest) :=
  ⟨by decide, by decide,
    (builtin_update_precedes_wildcard_dispatch exRegistry (fun _ => false) exStores exMsg 9
      (by decide) (by decide)).1⟩

/-- C6 counterexample: one wildcard subscriber (handler 7, itself
non-throwing) is registered, and the built-in store update (track a)
throws on a `trip_update` event with a `null` payload; the dispatch trace
is only the outer catch — the remaining track-b handler never runs — so
an exception in one track's handler does prevent the other track's
handlers from running. -/
theorem builtin_throw_blocks_subscribers :
    (svcHandleMessage (subscribe [] "all" 7) (fun _ => false) exStores exMsgNull 9).2
      = [DispatchEv.dispatchErrorCaught] := by
  rfl

/-- C6 (amended): handler exceptions are isolated per subscriber — when
the built-in store update (track a) does not throw, every registered
subscriber of both lists runs during the pass (a throwing one is caught
and logged, a non-throwing one is invoked), no matter which other
subscribers throw.  An exception thrown by the built-in update itself
aborts the pass before any subscriber runs (caught and logged by the
outer handler, surfacing a connection error). -/
theorem subscriber_exception_isolation (mh : MessageHandlers) (beh : Nat → Bool)
    (st : Stores) (msg : WSMessage) (now : Nat)
    (hok : storeThrows msg.payload = false) :
    (∀ hh ∈ (mhGet mh (msgType msg.payload)).getD [], beh hh = false →
      DispatchEv.invoked Track.typed hh (svcHandleMessage mh beh st msg now).1
        ∈ (svcHandleMessage mh beh st msg now).2) ∧
    (∀ hh ∈ (mhGet mh "all").getD [], beh hh = false →
      DispatchEv.invoked Track.wildcard hh (svcHandleMessage mh beh st msg now).1
        ∈ (svcHandleMessage mh beh st msg now).2) ∧
    (∀ hh ∈ (mhGet mh (msgType msg.payload)).getD [], beh hh = true →
      DispatchEv.caught Track.typed hh ∈ (svcHandleMessage mh beh st msg now).2) ∧
    (∀ hh ∈ (mhGet mh "all").getD [], beh hh = true →
      DispatchEv.caught Track.wildcard hh ∈ (svcHandleMessage mh beh st msg now).2) := by
  obtain ⟨st2, h2⟩ := storeHandleMessage_ok_exists _ msg now hok
  rw [svcHandleMessage_ok_shape mh beh st msg now st2 h2]
  refine ⟨fun hh hm hbf => ?_, fun hh hm hbf => ?_, fun hh hm hbt => ?_,
    fun hh hm hbt => ?_⟩ <;>
    simp only [List.mem_cons, List.mem_append, List.mem_map]
  · exact Or.inr (Or.inl ⟨hh, hm, by simp [hbf]⟩)
  · exact Or.inr (Or.inr ⟨hh, hm, by simp [hbf]⟩)
  · exact Or.inr (Or.inl ⟨hh, hm, by simp [hbt]⟩)
  · exact Or.inr (Or.inr ⟨hh, hm, by simp [hbt]⟩)

/-- Witness for C6 (amended): the typed subscriber (4) throws, the
wildcard subscriber (9) still gets invoked. -/
theorem subscriber_exception_isolation_witness :
    storeThrows exMsg.payload = false ∧
      DispatchEv.invoked Track.wildcard 9
          (svcHandleMessage exRegistry (fun n => n == 4) exStores exMsg 9).1
        ∈ (svcHandleMessage exRegistry (fun n => n == 4) exStores exMsg 9).2 :=
  ⟨by decide,
    (subscriber_exception_isolation exRegistry (fun n => n == 4) exStores exMsg 9
      (by decide)).2.1 9 (by decide) (by decide)⟩

/-! ## C1 -/

theorem liveSidsL_cons (t : Transport) (l : List Transport) :
    liveSidsL (t :: l) = if t.closed then liveSidsL l else t.sid :: liveSidsL l := by
  unfold liveSidsL
  cases hc : t.closed <;> simp [List.filter_cons, hc]

theorem liveSidsL_append (l1 l2 : List Transport) :
    liveSidsL (l1 ++ l2) = liveSidsL l1 ++ liveSidsL l2 := by
  unfold liveSidsL
  rw [List.filter_append, List.map_append]

theorem liveSidsL_close_nil (sid : Nat) (l : List Transport) (h : liveSidsL l = []) :
    liveSidsL (l.map (fun (t : Transport) =>
      if t.sid == sid then { t with closed := true, connected := false } else t)) = [] := by
  induction l with
  | nil => rfl
  | cons t l ih =>
    rw [liveSidsL_cons] at h
    rw [List.map_cons, liveSidsL_cons]
    cases hc : t.closed with
    | false => simp [hc] at h
    | true =>
      simp only [hc, if_true] at h
      by_cases hs : (t.sid == sid) = true
      · simp only [hs, if_true, hc]
        simpa using ih h
      · have hsf : (t.sid == sid) = false := by simpa using hs
        simp only [hsf, Bool.false_eq_true, if_false, hc, if_true]
        exact ih h

theorem liveSidsL_close_single (sid : Nat) (l : List Transport) (h : liveSidsL l = [sid]) :
    liveSidsL (l.map (fun (t : Transport) =>
      if t.sid == sid then { t with closed := true, connected := false } else t)) = [] := by
  induction l with
  | nil => simp [liveSidsL] at h
  | cons t l ih =>
    rw [liveSidsL_cons] at h
    rw [List.map_cons, liveSidsL_cons]
    cases hc : t.closed with
    | true =>
      simp only [hc, if_true] at h
      by_cases hs : (t.sid == sid) = true
      · simp only [hs, if_true]
        simpa using ih h
      · have hsf : (t.sid == sid) = false := by simpa using hs
        simp only [hsf, Bool.false_eq_true, if_false, hc, if_true]
        exact ih h
    | false =>
      simp only [hc, Bool.false_eq_true, if_false, List.cons.injEq] at h
      obtain ⟨h1, h2⟩ := h
      have hs : (t.sid == sid) = true := by simpa using h1
      simp only [hs, if_true]
      simpa using liveSidsL_close_nil sid l h2

theorem liveSidsL_setConn (sid : Nat) (l : List Transport) :
    liveSidsL (l.map (fun (t : Transport) =>
      if t.sid == sid then { t with connected := true } else t)) = liveSidsL l := by
  induction l with
  | nil => rfl
  | cons t l ih =>
    rw [List.map_cons, liveSidsL_cons, liveSidsL_cons]
    by_cases hs : (t.sid == sid) = true
    · simp only [hs, if_true]
      rw [ih]
    · have hsf : (t.sid == sid) = false := by simpa using hs
      simp only [hsf, Bool.false_eq_true, if_false]
      rw [ih]

theorem find?_sid_append_new (l : List Transport) (sid : Nat)
    (h : ∀ t ∈ l, t.sid ≠ sid) :
    List.find? (fun (t : Transport) => t.sid == sid)
        (l ++ [(⟨sid, false, false⟩ : Transport)])
      = some ⟨sid, false, false⟩ := by
  induction l with
  | nil => simp [List.find?]
  | cons t l ih =>
    have hf : (t.sid == sid) = false := by
      simpa using h t (List.mem_cons_self t l)
    rw [List.cons_append, List.find?_cons_of_neg _ (by simp [hf])]
    exact ih fun q hq => h q (List.mem_cons_of_mem t hq)

theorem find?_map_setConn (l : List Transport) (sid : Nat) :
    List.find? (fun (t : Transport) => t.sid == sid)
        (l.map (fun (t : Transport) =>
          if t.sid == sid then { t with connected := true } else t))
      = (List.find? (fun (t : Transport) => t.sid == sid) l).map
          (fun (t : Transport) => if t.sid == sid then { t with connected := true } else t) := by
  induction l with
  | nil => rfl
  | cons t l ih =>
    rw [List.map_cons]
    by_cases hp : (t.sid == sid) = true
    · rw [List.find?_cons_of_pos _ (by simp [hp]), List.find?_cons_of_pos _ (by exact hp)]
      rfl
    · have hpf : (t.sid == sid) = false := by simpa using hp
      rw [List.find?_cons_of_neg _ (by simp [hpf]), List.find?_cons_of_neg _ (by simp [hpf])]
      exact ih

theorem connect_noop (s : SvcState) (cfg : WSConfig)
    (h : (s.isConnecting || currentConnected s) = true) : connect s cfg = (s, []) := by
  unfold connect
  rw [if_pos h]

theorem connect_eq_none (s : SvcState) (cfg : WSConfig) (hic : s.isConnecting = false)
    (hcc : currentConnected s = false) (hs : s.socket = none) :
    connect s cfg =
      ({ socket := some s.nextSid, config := some cfg,
         reconnectAttempts := s.reconnectAttempts, heartbeatOn := s.heartbeatOn,
         isConnecting := false, isInitialized := true,
         sockets := s.sockets ++ [⟨s.nextSid, false, false⟩], nextSid := s.nextSid + 1,
         store := setConnected s.store true },
       [TransportEv.established s.nextSid]) := by
  unfold connect
  rw [if_neg (by simp [hic, hcc])]
  dsimp only
  rw [hs]
  rfl

theorem connect_eq_some (s : SvcState) (cfg : WSConfig) (sid0 : Nat)
    (hic : s.isConnecting = false) (hcc : currentConnected s = false)
    (hs : s.socket = some sid0) :
    connect s cfg =
      ({ socket := some s.nextSid, config := some cfg,
         reconnectAttempts := s.reconnectAttempts, heartbeatOn := s.heartbeatOn,
         isConnecting := false, isInitialized := true,
         sockets := (s.sockets.map (fun (t : Transport) =>
           if t.sid == sid0 then { t with closed := true, connected := false } else t))
           ++ [⟨s.nextSid, false, false⟩],
         nextSid := s.nextSid + 1,
         store := setConnected s.store true },
       [TransportEv.toreDown sid0, TransportEv.established s.nextSid]) := by
  have hwc : (match List.find? (fun (t : Transport) => t.sid == sid0) s.sockets with
      | some t => t.connected && !t.closed
      | none => false) = false := by
    unfold currentConnected at hcc
    rw [hs] at hcc
    exact hcc
  unfold connect socketDisconnect
  rw [if_neg (by simp [hic, hcc])]
  dsimp only
  rw [hs]
  dsimp only
  rw [hwc]
  rfl

theorem closeFn_sid (sid0 : Nat) (t : Transport) :
    ((if t.sid == sid0 then { t with closed := true, connected := false } else t)
      : Transport).sid = t.sid := by
  by_cases h : (t.sid == sid0) = true
  · simp [h]
  · have hf : (t.sid == sid0) = false := by simpa using h
    simp [hf]

theorem connect_establishes (s : SvcState) (cfg : WSConfig) (hwf : svcWf s)
    (hcc : currentConnected s = false) :
    (connect s cfg).1.socket = some s.nextSid ∧
    liveSids (connect s cfg).1 = [s.nextSid] ∧
    List.find? (fun (t : Transport) => t.sid == s.nextSid) (connect s cfg).1.sockets
      = some ⟨s.nextSid, false, false⟩ ∧
    (connect s cfg).1.isConnecting = false ∧
    (connect s cfg).1.nextSid = s.nextSid + 1 ∧
    (∀ t ∈ (connect s cfg).1.sockets, t.sid < (connect s cfg).1.nextSid) ∧
    (connect s cfg).1.sockets.Pairwise (fun a b => a.sid ≠ b.sid) ∧
    (connect s cfg).2 = (match s.socket with
      | some sid0 => [TransportEv.toreDown sid0, TransportEv.established s.nextSid]
      | none => [TransportEv.established s.nextSid]) := by
  obtain ⟨hic, hpw, hbound, hsock⟩ := hwf
  cases hs : s.socket with
  | none =>
    rw [connect_eq_none s cfg hic hcc hs]
    have hlive : liveSidsL s.sockets = [] := by
      rw [hs] at hsock
      exact hsock
    refine ⟨rfl, ?_, ?_, rfl, rfl, ?_, ?_, rfl⟩
    · show liveSidsL (s.sockets ++ [⟨s.nextSid, false, false⟩]) = [s.nextSid]
      rw [liveSidsL_append, hlive]
      rfl
    · exact find?_sid_append_new s.sockets s.nextSid fun t ht => Nat.ne_of_lt (hbound t ht)
    · intro t ht
      rcases List.mem_append.mp ht with h1 | h1
      · exact Nat.lt_succ_of_lt (hbound t h1)
      · have h2 := List.mem_singleton.mp h1
        subst h2
        exact Nat.lt_succ_self _
    · rw [List.pairwise_append]
      refine ⟨hpw, List.pairwise_singleton _ _, ?_⟩
      intro a ha b hb
      have h2 := List.mem_singleton.mp hb
      subst h2
      exact Nat.ne_of_lt (hbound a ha)
  | some sid0 =>
    rw [connect_eq_some s cfg sid0 hic hcc hs]
    have hlive : liveSidsL s.sockets = [sid0] := by
      rw [hs] at hsock
      exact hsock.1
    refine ⟨rfl, ?_, ?_, rfl, rfl, ?_, ?_, rfl⟩
    · show liveSidsL ((s.sockets.map (fun (t : Transport) =>
        if t.sid == sid0 then { t with closed := true, connected := false } else t))
          ++ [⟨s.nextSid, false, false⟩]) = [s.nextSid]
      rw [liveSidsL_append, liveSidsL_close_single sid0 s.sockets hlive]
      rfl
    · refine find?_sid_append_new _ s.nextSid ?_
      intro t ht
      obtain ⟨x, hx, rfl⟩ := List.mem_map.mp ht
      simp only [closeFn_sid]
      exact Nat.ne_of_lt (hbound x hx)
    · intro t ht
      rcases List.mem_append.mp ht with h1 | h1
      · obtain ⟨x, hx, rfl⟩ := List.mem_map.mp h1
        simp only [closeFn_sid]
        exact Nat.lt_succ_of_lt (hbound x hx)
      · have h2 := List.mem_singleton.mp h1
        subst h2
        exact Nat.lt_succ_self _
    · rw [List.pairwise_append]
      refine ⟨?_, List.pairwise_singleton _ _, ?_⟩
      · rw [List.pairwise_map]
        refine List.Pairwise.imp ?_ hpw
        intro a b hab
        simpa only [closeFn_sid] using hab
      · intro a ha b hb
        have h2 := List.mem_singleton.mp hb
        subst h2
        obtain ⟨x, hx, rfl⟩ := List.mem_map.mp ha
        simp only [closeFn_sid]
        exact Nat.ne_of_lt (hbound x hx)

theorem onConnectEvent_preserves (s : SvcState) :
    (onConnectEvent s).isConnecting = s.isConnecting ∧
      (onConnectEvent s).socket = s.socket ∧
      liveSids (onConnectEvent s) = liveSids s := by
  obtain ⟨sock, cf, ra, hb0, ic, ii, socks, ns, st0⟩ := s
  cases sock with
  | none => exact ⟨rfl, rfl, rfl⟩
  | some sid =>
    refine ⟨rfl, rfl, ?_⟩
    show liveSidsL (socks.map (fun (t : Transport) =>
      if t.sid == sid then { t with connected := true } else t)) = liveSidsL socks
    exact liveSidsL_setConn sid socks

theorem currentConnected_onConnectEvent (s : SvcState)
    (h : currentConnected s = true) :
    currentConnected (onConnectEvent s) = true := by
  obtain ⟨sock, cf, ra, hb0, ic, ii, socks, ns, st0⟩ := s
  cases sock with
  | none => simpa [currentConnected] using h
  | some sid =>
    have h2 : (match List.find? (fun (t : Transport) => t.sid == sid) socks with
        | some t => t.connected && !t.closed
        | none => false) = true := h
    show (match List.find? (fun (t : Transport) => t.sid == sid)
        (socks.map (fun (t : Transport) =>
          if t.sid == sid then { t with connected := true } else t)) with
      | some t => t.connected && !t.closed
      | none => false) = true
    rw [find?_map_setConn]
    cases hf : List.find? (fun (t : Transport) => t.sid == sid) socks with
    | none => rw [hf] at h2; simp at h2
    | some t0 =>
      rw [hf] at h2
      have hpt : (t0.sid == sid) = true := by
        have h3 := List.find?_some hf
        exact h3
      simp only [Bool.and_eq_true] at h2
      have hpe : t0.sid = sid := by simpa using hpt
      simp [hpe, h2.1, h2.2]

theorem currentConnected_onConnectEvent_pending (s : SvcState) (sid : Nat)
    (hs : s.socket = some sid)
    (hf : List.find? (fun (t : Transport) => t.sid == sid) s.sockets
      = some ⟨sid, false, false⟩) :
    currentConnected (onConnectEvent s) = true := by
  obtain ⟨sock, cf, ra, hb0, ic, ii, socks, ns, st0⟩ := s
  have hs2 : sock = some sid := hs
  subst hs2
  have hf2 : List.find? (fun (t : Transport) => t.sid == sid) socks
      = some ⟨sid, false, false⟩ := hf
  show (match List.find? (fun (t : Transport) => t.sid == sid)
      (socks.map (fun (t : Transport) =>
        if t.sid == sid then { t with connected := true } else t)) with
    | some t => t.connected && !t.closed
    | none => false) = true
  rw [find?_map_setConn, hf2]
  simp

/-- C1: from any well-formed service state, after two `connect` calls in
succession — with or without the first call's handshake completing in
between (`b`) — exactly one transport is live, and whenever the second
call establishes a transport, its event trace tears down the previous
live transport before establishing the new one. -/
theorem connect_twice_single_live_transport (s : SvcState) (cfg1 cfg2 : WSConfig)
    (b : Bool) (hwf : svcWf s) :
    (liveSids (twoConnects s cfg1 cfg2 b).1).length = 1 ∧
      ((twoConnects s cfg1 cfg2 b).2 = [] ∨
        ∃ sid1 sid2, (connect s cfg1).1.socket = some sid1 ∧
          (twoConnects s cfg1 cfg2 b).2
            = [TransportEv.toreDown sid1, TransportEv.established sid2]) := by
  obtain ⟨hic, hpw, hbound, hsock⟩ := hwf
  by_cases hcc : currentConnected s = true
  · have hnoop1 : connect s cfg1 = (s, []) := connect_noop s cfg1 (by simp [hic, hcc])
    obtain ⟨sid0, hs⟩ : ∃ sid0, s.socket = some sid0 := by
      cases hs : s.socket with
      | none =>
        exfalso
        unfold currentConnected at hcc
        rw [hs] at hcc
        simp at hcc
      | some sid0 => exact ⟨sid0, rfl⟩
    have hlive : liveSids s = [sid0] := by
      rw [hs] at hsock
      exact hsock.1
    cases b with
    | false =>
      have hnoop2 : connect s cfg2 = (s, []) := connect_noop s cfg2 (by simp [hic, hcc])
      have ht : twoConnects s cfg1 cfg2 false = (s, []) := by
        unfold twoConnects
        rw [hnoop1]
        exact hnoop2
      rw [ht]
      exact ⟨by rw [show liveSids (s, ([] : List TransportEv)).1 = liveSids s from rfl,
        hlive]; rfl, Or.inl rfl⟩
    | true =>
      have hpres := onConnectEvent_preserves s
      have hcc2 : currentConnected (onConnectEvent s) = true :=
        currentConnected_onConnectEvent s hcc
      have hnoop2 : connect (onConnectEvent s) cfg2 = (onConnectEvent s, []) :=
        connect_noop _ cfg2 (by simp [hpres.1, hic, hcc2])
      have ht : twoConnects s cfg1 cfg2 true = (onConnectEvent s, []) := by
        unfold twoConnects
        rw [hnoop1]
        exact hnoop2
      rw [ht]
      refine ⟨?_, Or.inl rfl⟩
      show (liveSids (onConnectEvent s)).length = 1
      rw [hpres.2.2, hlive]
      rfl
  · have hccf : currentConnected s = false := by simpa using hcc
    obtain ⟨hsoc1, hlive1, hfind1, hic1, hnext1, hbound1, hpw1, htr1⟩ :=
      connect_establishes s cfg1 ⟨hic, hpw, hbound, hsock⟩ hccf
    have hwf1 : svcWf (connect s cfg1).1 := by
      refine ⟨hic1, hpw1, hbound1, ?_⟩
      rw [hsoc1]
      exact ⟨hlive1, by rw [hnext1]; omega⟩
    cases b with
    | false =>
      have hcc1 : currentConnected (connect s cfg1).1 = false := by
        unfold currentConnected
        rw [hsoc1]
        show (match List.find? (fun (t : Transport) => t.sid == s.nextSid)
            (connect s cfg1).1.sockets with
          | some t => t.connected && !t.closed
          | none => false) = false
        rw [hfind1]
        rfl
      obtain ⟨hsoc2, hlive2, _, _, _, _, _, htr2⟩ :=
        connect_establishes (connect s cfg1).1 cfg2 hwf1 hcc1
      constructor
      · show (liveSids (connect (connect s cfg1).1 cfg2).1).length = 1
        rw [hlive2]
        rfl
      · right
        refine ⟨s.nextSid, (connect s cfg1).1.nextSid, hsoc1, ?_⟩
        show (connect (connect s cfg1).1 cfg2).2
          = [TransportEv.toreDown s.nextSid,
             TransportEv.established (connect s cfg1).1.nextSid]
        rw [htr2, hsoc1]
    | true =>
      have hcc1h : currentConnected (onConnectEvent (connect s cfg1).1) = true :=
        currentConnected_onConnectEvent_pending (connect s cfg1).1 s.nextSid hsoc1 hfind1
      have hpres := onConnectEvent_preserves (connect s cfg1).1
      have hnoop2 : connect (onConnectEvent (connect s cfg1).1) cfg2
          = (onConnectEvent (connect s cfg1).1, []) :=
        connect_noop _ cfg2 (by simp [hpres.1, hic1, hcc1h])
      constructor
      · show (liveSids (connect (onConnectEvent (connect s cfg1).1) cfg2).1).length = 1
        rw [hnoop2]
        show (liveSids (onConnectEvent (connect s cfg1).1)).length = 1
        rw [hpres.2.2, hlive1]
        rfl
      · left
        show (connect (onConnectEvent (connect s cfg1).1) cfg2).2 = []
        rw [hnoop2]

/-- Witness for C1 from the freshly constructed service. -/
theorem connect_twice_single_live_transport_witness :
    svcWf initSvcState ∧
      (liveSids (twoConnects initSvcState exCfg exCfg2 false).1).length = 1 :=
  ⟨⟨rfl, List.Pairwise.nil, by decide, rfl⟩,
    (connect_twice_single_live_transport initSvcState exCfg exCfg2 false
      ⟨rfl, List.Pairwise.nil, by decide, rfl⟩).1⟩

/-! ## C9 -/

theorem filterStep_status (fs : TripFilters) (l : List Trip) (fr : Bool) :
    (match fs.status with
     | some s => if s.length != 0
        then (l.filter (fun (t : Trip) => s.contains t.status), true) else (l, fr)
     | none => (l, fr))
      = (l.filter (statusPred fs), fr || statusActive fs) := by
  cases hs : fs.status with
  | none =>
    have hp : statusPred fs = fun _ => true := by
      funext t
      simp [statusPred, hs]
    simp [statusActive, hs, hp, List.filter_true]
  | some s =>
    by_cases hl : (s.length != 0) = true
    · have hp : statusPred fs = fun (t : Trip) => s.contains t.status := by
        funext t
        simp [statusPred, hs, hl]
      simp [statusActive, hs, hl, hp]
    · have hlf : (s.length != 0) = false := by simpa using hl
      have hp : statusPred fs = fun _ => true := by
        funext t
        simp [statusPred, hs, hlf]
      simp [statusActive, hs, hlf, hp, List.filter_true]

theorem filterStep_service (fs : TripFilters) (l : List Trip) (fr : Bool) :
    (match fs.serviceType with
     | some s => if s.length != 0
        then (l.filter (fun (t : Trip) => s.contains t.serviceType), true) else (l, fr)
     | none => (l, fr))
      = (l.filter (servicePred fs), fr || serviceActive fs) := by
  cases hs : fs.serviceType with
  | none =>
    have hp : servicePred fs = fun _ => true := by
      funext t
      simp [servicePred, hs]
    simp [serviceActive, hs, hp, List.filter_true]
  | some s =>
    by_cases hl : (s.length != 0) = true
    · have hp : servicePred fs = fun (t : Trip) => s.contains t.serviceType := by
        funext t
        simp [servicePred, hs, hl]
      simp [serviceActive, hs, hl, hp]
    · have hlf : (s.length != 0) = false := by simpa using hl
      have hp : servicePred fs = fun _ => true := by
        funext t
        simp [servicePred, hs, hlf]
      simp [serviceActive, hs, hlf, hp, List.filter_true]

theorem filterStep_driver (fs : TripFilters) (l : List Trip) (fr : Bool) :
    (match fs.driverId with
     | some did =>
       if did != "" then
         (l.filter (fun (t : Trip) =>
           match t.driver with
           | some d => d.id == did
           | none => false), true)
       else (l, fr)
     | none => (l, fr))
      = (l.filter (driverPred fs), fr || driverActive fs) := by
  cases hs : fs.driverId with
  | none =>
    have hp : driverPred fs = fun _ => true := by
      funext t
      simp [driverPred, hs]
    simp [driverActive, hs, hp, List.filter_true]
  | some did =>
    by_cases hl : (did != "") = true
    · have hp : driverPred fs = fun (t : Trip) =>
          match t.driver with
          | some d => d.id == did
          | none => false := by
        funext t
        simp [driverPred, hs, hl]
      simp [driverActive, hs, hl, hp]
    · have hlf : (did != "") = false := by simpa using hl
      have hp : driverPred fs = fun _ => true := by
        funext t
        simp [driverPred, hs, hlf]
      simp [driverActive, hs, hlf, hp, List.filter_true]

theorem filterStep_rider (fs : TripFilters) (l : List Trip) (fr : Bool) :
    (match fs.riderId with
     | some rid => if rid != ""
        then (l.filter (fun (t : Trip) => t.rider.id == rid), true) else (l, fr)
     | none => (l, fr))
      = (l.filter (riderPred fs), fr || riderActive fs) := by
  cases hs : fs.riderId with
  | none =>
    have hp : riderPred fs = fun _ => true := by
      funext t
      simp [riderPred, hs]
    simp [riderActive, hs, hp, List.filter_true]
  | some rid =>
    by_cases hl : (rid != "") = true
    · have hp : riderPred fs = fun (t : Trip) => t.rider.id == rid := by
        funext t
        simp [riderPred, hs, hl]
      simp [riderActive, hs, hl, hp]
    · have hlf : (rid != "") = false := by simpa using hl
      have hp : riderPred fs = fun _ => true := by
        funext t
        simp [riderPred, hs, hlf]
      simp [riderActive, hs, hlf, hp, List.filter_true]

theorem filterStep_date (fs : TripFilters) (l : List Trip) (fr : Bool) :
    (match fs.dateRange with
     | some r =>
       (l.filter (fun (t : Trip) =>
         decide (r.1 ≤ t.requestedAt) && decide (t.requestedAt ≤ r.2)), true)
     | none => (l, fr))
      = (l.filter (datePred fs), fr || dateActive fs) := by
  cases hs : fs.dateRange with
  | none =>
    have hp : datePred fs = fun _ => true := by
      funext t
      simp [datePred, hs]
    simp [dateActive, hs, hp, List.filter_true]
  | some r =>
    have hp : datePred fs = fun (t : Trip) =>
        decide (r.1 ≤ t.requestedAt) && decide (t.requestedAt ≤ r.2) := by
      funext t
      simp [datePred, hs]
    simp [dateActive, hs, hp]

theorem filterStep_search (fs : TripFilters) (l : List Trip) (fr : Bool) :
    (match fs.search with
     | some s => if s != "" then (l.filter (tripSearchMatch s), true) else (l, fr)
     | none => (l, fr))
      = (l.filter (searchPred fs), fr || searchActive fs) := by
  cases hs : fs.search with
  | none =>
    have hp : searchPred fs = fun _ => true := by
      funext t
      simp [searchPred, hs]
    simp [searchActive, hs, hp, List.filter_true]
  | some s =>
    by_cases hl : (s != "") = true
    · have hp : searchPred fs = tripSearchMatch s := by
        funext t
        simp [searchPred, hs, hl]
      simp [searchActive, hs, hl, hp]
    · have hlf : (s != "") = false := by simpa using hl
      have hp : searchPred fs = fun _ => true := by
        funext t
        simp [searchPred, hs, hlf]
      simp [searchActive, hs, hlf, hp, List.filter_true]

theorem bool_and_rev (a b c d e f : Bool) :
    (f && (e && (d && (c && (b && a))))) = (((((a && b) && c) && d) && e) && f) := by
  cases a <;> cases b <;> cases c <;> cases d <;> cases e <;> cases f <;> rfl

theorem applyTripFilters_eq (fs : TripFilters) (l0 : List Trip) :
    applyTripFilters fs l0 = (l0.filter (tripPasses fs), anyTripFilterActive fs) := by
  unfold applyTripFilters
  dsimp only
  rw [filterStep_status fs l0 false]
  dsimp only
  rw [filterStep_service fs (l0.filter (statusPred fs)) (false || statusActive fs)]
  dsimp only
  rw [filterStep_driver fs _ _]
  dsimp only
  rw [filterStep_rider fs _ _]
  dsimp only
  rw [filterStep_date fs _ _]
  dsimp only
  rw [filterStep_search fs _ _]
  rw [Prod.mk.injEq]
  constructor
  · simp only [List.filter_filter]
    refine List.filter_congr ?_
    intro t _
    unfold tripPasses
    exact bool_and_rev (statusPred fs t) (servicePred fs t) (driverPred fs t)
      (riderPred fs t) (datePred fs t) (searchPred fs t)
  · unfold anyTripFilterActive
    simp only [Bool.false_or]

theorem statusPred_inactive (fs : TripFilters) (h : statusActive fs = false) (t : Trip) :
    statusPred fs t = true := by
  unfold statusActive at h
  unfold statusPred
  cases hs : fs.status with
  | none => rfl
  | some s =>
    rw [hs] at h
    simp at h
    simp [h]

theorem servicePred_inactive (fs : TripFilters) (h : serviceActive fs = false) (t : Trip) :
    servicePred fs t = true := by
  unfold serviceActive at h
  unfold servicePred
  cases hs : fs.serviceType with
  | none => rfl
  | some s =>
    rw [hs] at h
    simp at h
    simp [h]

theorem driverPred_inactive (fs : TripFilters) (h : driverActive fs = false) (t : Trip) :
    driverPred fs t = true := by
  unfold driverActive at h
  unfold driverPred
  cases hs : fs.driverId with
  | none => rfl
  | some did =>
    rw [hs] at h
    simp at h
    simp [h]

theorem riderPred_inactive (fs : TripFilters) (h : riderActive fs = false) (t : Trip) :
    riderPred fs t = true := by
  unfold riderActive at h
  unfold riderPred
  cases hs : fs.riderId with
  | none => rfl
  | some rid =>
    rw [hs] at h
    simp at h
    simp [h]

theorem datePred_inactive (fs : TripFilters) (h : dateActive fs = false) (t : Trip) :
    datePred fs t = true := by
  unfold dateActive at h
  unfold datePred
  cases hs : fs.dateRange with
  | none => rfl
  | some r =>
    rw [hs] at h
    simp at h

theorem searchPred_inactive (fs : TripFilters) (h : searchActive fs = false) (t : Trip) :
    searchPred fs t = true := by
  unfold searchActive at h
  unfold searchPred
  cases hs : fs.search with
  | none => rfl
  | some s =>
    rw [hs] at h
    simp at h
    simp [h]

/-- C9 (code bug): the specification requires the derived view to be a
pure computation — exactly the filtered records, stably sorted by the
requested field with ties in the records' original order, leaving the
stored collection unmodified.  The source instead ends `getFilteredTrips`
with an in-place `filteredTrips.sort(...)` whose comparator never returns
0 — an inconsistent comparison function, so the order it produces is
implementation-defined rather than the claimed stable order — and, as
this theorem shows by evaluating the filter pipeline, when no filter
criterion is active the list handed to that in-place sort is the store's
own `trips` array itself (the fresh-array flag is still false, no
`.filter` call having copied it), so the sort targets the raw stored
collection instead of a derived copy. -/
theorem getFilteredTrips_sort_targets_store (fs : TripFilters) (l : List Trip)
    (h : anyTripFilterActive fs = false) :
    applyTripFilters fs l = (l, false) := by
  have h6 : statusActive fs = false ∧ serviceActive fs = false ∧
      driverActive fs = false ∧ riderActive fs = false ∧
      dateActive fs = false ∧ searchActive fs = false := by
    unfold anyTripFilterActive at h
    simp only [Bool.or_eq_false_iff] at h
    exact ⟨h.1.1.1.1.1, h.1.1.1.1.2, h.1.1.1.2, h.1.1.2, h.1.2, h.2⟩
  have hpass : ∀ t ∈ l, tripPasses fs t = (fun (_ : Trip) => true) t := by
    intro t _
    unfold tripPasses
    rw [statusPred_inactive fs h6.1 t, servicePred_inactive fs h6.2.1 t,
      driverPred_inactive fs h6.2.2.1 t, riderPred_inactive fs h6.2.2.2.1 t,
      datePred_inactive fs h6.2.2.2.2.1 t, searchPred_inactive fs h6.2.2.2.2.2 t]
    rfl
  rw [applyTripFilters_eq, h, List.filter_congr hpass, List.filter_true]

/-- Witness for the C9 theorem at the default (empty) filter criteria and
a concrete two-trip store. -/
theorem getFilteredTrips_sort_targets_store_witness :
    anyTripFilterActive exNoFilters = false ∧
      applyTripFilters exNoFilters exTripState.trips = (exTripState.trips, false) :=
  ⟨by decide,
    getFilteredTrips_sort_targets_store exNoFilters exTripState.trips (by decide)⟩
